import Mathlib

/-!
Verification of the Nutrition Aggregation & Progression Engine of the
AIDish repository, embedded shallowly from src/src/routes/nutrition.py.

Numeric conventions of the embedding:
- Python floats are modelled as exact rationals.
- Database integer columns (spirit attributes) are modelled as integers.
- Spirit level and experience are modelled as naturals; level starts at 1
  and experience at 0 in the database, and the code only adds gains and
  subtracts thresholds under a guard, so values stay non-negative.
- The Python builtin int() truncates toward zero; pyInt models it.
-/

namespace AIDish

/-- Python int(): truncation toward zero on a rational. -/
def pyInt (q : ℚ) : ℤ := if 0 ≤ q then ⌊q⌋ else ⌈q⌉

/-- Meal classifier from get_meal_type_by_time (nutrition.py lines 8-35):
the hour of the timestamp selects the slot string. -/
def get_meal_type_by_time (hour : ℕ) : String :=
  if 5 ≤ hour ∧ hour < 10 then "1"
  else if 10 ≤ hour ∧ hour < 15 then "2"
  else if 15 ≤ hour ∧ hour < 23 then "3"
  else "1"

/-- Per-meal nutrition record as built in record_meal (lines 137-151):
each field is the food value scaled by the portion, or absent when the
food has no value for that nutrient. -/
structure Nutrition where
  calories : Option ℚ
  protein : Option ℚ
  fat : Option ℚ
  calcium : Option ℚ
  iron : Option ℚ
  zinc : Option ℚ
  magnesium : Option ℚ
  vitamin_a : Option ℚ
  vitamin_b1 : Option ℚ
  vitamin_b2 : Option ℚ
  vitamin_c : Option ℚ
  vitamin_d : Option ℚ
  vitamin_e : Option ℚ
deriving DecidableEq

/-- A food row of the catalog (models.Food): nutrient values are nullable. -/
structure Food where
  id : ℕ
  name : String
  calories : Option ℚ
  protein : Option ℚ
  fat : Option ℚ
  calcium : Option ℚ
  iron : Option ℚ
  zinc : Option ℚ
  magnesium : Option ℚ
  vitamin_a : Option ℚ
  vitamin_b1 : Option ℚ
  vitamin_b2 : Option ℚ
  vitamin_c : Option ℚ
  vitamin_d : Option ℚ
  vitamin_e : Option ℚ
deriving DecidableEq

/-- One entry of the foods array of a record_meal request: the name may be
missing (the handler skips such entries) and the amount defaults to 1. -/
structure FoodReq where
  food_name : Option String
  amount : Option ℚ
deriving DecidableEq

/-- An entry of recorded_foods as built in record_meal (lines 134-152). -/
structure RecordedFood where
  food_name : String
  amount : ℚ
  nutrition : Nutrition
deriving DecidableEq

/-- The nutrition dictionary built for one food in record_meal
(lines 137-151): value times amount when present, absent otherwise. -/
def buildNutrition (food : Food) (amount : ℚ) : Nutrition where
  calories := food.calories.map (· * amount)
  protein := food.protein.map (· * amount)
  fat := food.fat.map (· * amount)
  calcium := food.calcium.map (· * amount)
  iron := food.iron.map (· * amount)
  zinc := food.zinc.map (· * amount)
  magnesium := food.magnesium.map (· * amount)
  vitamin_a := food.vitamin_a.map (· * amount)
  vitamin_b1 := food.vitamin_b1.map (· * amount)
  vitamin_b2 := food.vitamin_b2.map (· * amount)
  vitamin_c := food.vitamin_c.map (· * amount)
  vitamin_d := food.vitamin_d.map (· * amount)
  vitamin_e := food.vitamin_e.map (· * amount)

/-- Accumulated nutrient totals over a meal, all thirteen keys of the
total dictionary of calculate_total_nutrition (lines 270-284). -/
structure Totals where
  calories : ℚ
  protein : ℚ
  fat : ℚ
  calcium : ℚ
  iron : ℚ
  zinc : ℚ
  magnesium : ℚ
  vitamin_a : ℚ
  vitamin_b1 : ℚ
  vitamin_b2 : ℚ
  vitamin_c : ℚ
  vitamin_d : ℚ
  vitamin_e : ℚ
deriving DecidableEq

/-- The all-zero initial total dictionary (lines 270-284). -/
def zeroTotals : Totals where
  calories := 0
  protein := 0
  fat := 0
  calcium := 0
  iron := 0
  zinc := 0
  magnesium := 0
  vitamin_a := 0
  vitamin_b1 := 0
  vitamin_b2 := 0
  vitamin_c := 0
  vitamin_d := 0
  vitamin_e := 0

/-- One pass of the inner accumulation loop of calculate_total_nutrition
(lines 286-291): a present value is added, an absent one contributes 0. -/
def addNutrition (t : Totals) (n : Nutrition) : Totals where
  calories := t.calories + n.calories.getD 0
  protein := t.protein + n.protein.getD 0
  fat := t.fat + n.fat.getD 0
  calcium := t.calcium + n.calcium.getD 0
  iron := t.iron + n.iron.getD 0
  zinc := t.zinc + n.zinc.getD 0
  magnesium := t.magnesium + n.magnesium.getD 0
  vitamin_a := t.vitamin_a + n.vitamin_a.getD 0
  vitamin_b1 := t.vitamin_b1 + n.vitamin_b1.getD 0
  vitamin_b2 := t.vitamin_b2 + n.vitamin_b2.getD 0
  vitamin_c := t.vitamin_c + n.vitamin_c.getD 0
  vitamin_d := t.vitamin_d + n.vitamin_d.getD 0
  vitamin_e := t.vitamin_e + n.vitamin_e.getD 0

/-- calculate_total_nutrition (lines 261-293). The source function reads
only the nutrition field of each list element, so the embedding takes the
list of nutrition records directly and folds the accumulation loop. -/
def calculate_total_nutrition (foods : List Nutrition) : Totals :=
  foods.foldl addNutrition zeroTotals

/-- Progression state: the numeric columns of models.UserSpirit that the
engine reads and writes. -/
structure Spirit where
  spirit_level : ℕ
  spirit_exp : ℕ
  height : ℤ
  weight : ℤ
  iq : ℤ
  strength : ℤ
deriving DecidableEq

/-- The while loop of update_spirit_attributes (lines 224-226), run with
explicit fuel: while exp is at least level times 100, subtract the
threshold and increment the level. -/
def levelLoopF : ℕ → ℕ → ℕ → ℕ × ℕ
  | 0, level, exp => (level, exp)
  | fuel + 1, level, exp =>
    if level * 100 ≤ exp then levelLoopF fuel (level + 1) (exp - level * 100)
    else (level, exp)

/-- The leveling loop of lines 224-226. Each executed iteration removes at
least 100 experience (the level is at least 1 in every reachable state),
so exp itself is always enough fuel for the loop to run to completion. -/
def drain (level exp : ℕ) : ℕ × ℕ := levelLoopF exp level exp

/-- The nutrition_balance counter of update_spirit_attributes
(lines 207-215): one point per strictly positive total among calories,
protein, fat and calcium. -/
def nutritionBalance (t : Totals) : ℕ :=
  (if 0 < t.calories then 1 else 0) + (if 0 < t.protein then 1 else 0) +
  (if 0 < t.fat then 1 else 0) + (if 0 < t.calcium then 1 else 0)

/-- update_spirit_attributes (lines 187-259) on an existing spirit: base
gain 5 plus the balance bonus capped at 5, the leveling while loop, then
the three attribute updates, each truncated with int() and clamped at
100. The height column is never touched. Returns the new state and the
experience gained, as the handler reports them. -/
def update_spirit_attributes (s : Spirit) (t : Totals) : Spirit × ℕ :=
  let exp_gain := 5 + min (nutritionBalance t) 5
  let le := drain s.spirit_level (s.spirit_exp + exp_gain)
  ({ spirit_level := le.1
     spirit_exp := le.2
     height := s.height
     weight := min 100 (s.weight + pyInt (t.calories / 100))
     strength := min 100 (s.strength + pyInt (t.protein / 10))
     iq := min 100 (s.iq + pyInt ((t.vitamin_b1 + t.vitamin_b2 + t.vitamin_c) / 30)) },
   exp_gain)

/-- Failure modes of the record_meal handler (lines 62-185) that abort
the whole operation. -/
inductive RecordErr where
  | noFoods
  | foodNotFound (name : String)
  | allRecorded
deriving DecidableEq

/-- The per-food loop of record_meal (lines 107-152): entries without a
name are skipped, an unknown name aborts, a food already recorded for the
slot goes to skipped_foods, and otherwise the scaled nutrition record is
appended with the amount defaulting to 1. -/
def processFoods (catalog : List Food) (recordedIds : List ℕ) :
    List FoodReq → Except RecordErr (List RecordedFood × List String)
  | [] => .ok ([], [])
  | fr :: rest =>
    match fr.food_name with
    | none => processFoods catalog recordedIds rest
    | some nm =>
      match catalog.find? (fun f => f.name = nm) with
      | none => .error (.foodNotFound nm)
      | some food =>
        if food.id ∈ recordedIds then
          match processFoods catalog recordedIds rest with
          | .error e => .error e
          | .ok (rec2, skip2) => .ok (rec2, nm :: skip2)
        else
          let amount := fr.amount.getD 1
          match processFoods catalog recordedIds rest with
          | .error e => .error e
          | .ok (rec2, skip2) =>
            .ok ({ food_name := food.name, amount := amount,
                   nutrition := buildNutrition food amount } :: rec2, skip2)

/-- record_meal (lines 37-185), restricted to the computation on
materialized data: the empty-foods check (line 74), the per-food loop,
the all-already-recorded check (line 154), the total-nutrition
aggregation and the spirit update. -/
def record_meal (catalog : List Food) (recordedIds : List ℕ) (spirit : Spirit)
    (foods : List FoodReq) :
    Except RecordErr (List RecordedFood × List String × Totals × Spirit × ℕ) :=
  if foods.isEmpty then .error .noFoods
  else
    match processFoods catalog recordedIds foods with
    | .error e => .error e
    | .ok (recorded, skipped) =>
      if recorded.isEmpty then .error .allRecorded
      else
        let totals := calculate_total_nutrition (recorded.map RecordedFood.nutrition)
        let su := update_spirit_attributes spirit totals
        .ok (recorded, skipped, totals, su.1, su.2)

/-- The closed two-valued gender domain used by the standards table. -/
inductive Gender where
  | male
  | female
deriving DecidableEq

/-- The fixed thirteen-nutrient catalog of the standards table. -/
inductive Nutrient where
  | calories
  | protein
  | fat
  | calcium
  | iron
  | zinc
  | magnesium
  | vitamin_a
  | vitamin_b1
  | vitamin_b2
  | vitamin_c
  | vitamin_d
  | vitamin_e
deriving DecidableEq

/-- get_nutrition_standard (lines 681-739): the static standards table,
keyed by nutrient, gender and the age bracket at 18. -/
def get_nutrition_standard (nutrient : Nutrient) (gender : Gender) (age : ℤ) : ℚ :=
  match nutrient, gender with
  | .calories, .male => if age ≤ 18 then 2700 else 2400
  | .calories, .female => if age ≤ 18 then 2400 else 2100
  | .protein, .male => if age ≤ 18 then 75 else 65
  | .protein, .female => if age ≤ 18 then 65 else 55
  | .fat, .male => if age ≤ 18 then 75 else 70
  | .fat, .female => if age ≤ 18 then 65 else 60
  | .calcium, .male => if age ≤ 18 then 1000 else 800
  | .calcium, .female => if age ≤ 18 then 1000 else 800
  | .iron, .male => 12
  | .iron, .female => 15
  | .zinc, .male => 15
  | .zinc, .female => 12
  | .magnesium, _ => 100
  | .vitamin_a, .male => 800
  | .vitamin_a, .female => 700
  | .vitamin_b1, .male => 14 / 10
  | .vitamin_b1, .female => 12 / 10
  | .vitamin_b2, .male => 14 / 10
  | .vitamin_b2, .female => 12 / 10
  | .vitamin_c, _ => 100
  | .vitamin_d, _ => 100
  | .vitamin_e, _ => 100

/-- The record returned by get_nutrition_grade (lines 741-791). -/
structure GradeInfo where
  grade : String
  level : ℕ
  color : String
deriving DecidableEq

/-- get_nutrition_grade (lines 741-791): the seven-tier classification of
the consumption percentage. -/
def get_nutrition_grade (percentage : ℚ) : GradeInfo :=
  if percentage < 60 then { grade := "严重不足", level := 1, color := "red" }
  else if percentage < 80 then { grade := "不足", level := 2, color := "orange" }
  else if percentage < 95 then { grade := "略低", level := 3, color := "yellow" }
  else if percentage ≤ 105 then { grade := "适中", level := 4, color := "green" }
  else if percentage ≤ 120 then { grade := "充足", level := 3, color := "blue" }
  else if percentage ≤ 140 then { grade := "过量", level := 2, color := "orange" }
  else { grade := "严重过量", level := 1, color := "red" }

/-- The percentage computation of analyze_nutrition (line 799): the daily
average divided by the standard, times 100. -/
def nutritionPercentage (daily_avg : ℚ) (gender : Gender) (age : ℤ)
    (nutrient : Nutrient) : ℚ :=
  daily_avg / get_nutrition_standard nutrient gender age * 100

/-- Success test on a fallible result. -/
def exceptOk {ε α : Type} : Except ε α → Bool
  | .ok _ => true
  | .error _ => false

/-- Shape of a processFoods result: the error, or the number of recorded
foods together with the skipped names. Used to show that control flow of
record_meal never depends on the portion amounts. -/
def procShape : Except RecordErr (List RecordedFood × List String) →
    Except RecordErr (ℕ × List String)
  | .error e => .error e
  | .ok (recs, skips) => .ok (recs.length, skips)

/-- A concrete progression state: fresh level-1 spirit. -/
def spiritA : Spirit where
  spirit_level := 1
  spirit_exp := 0
  height := 100
  weight := 20
  iq := 50
  strength := 50

/-- Concrete totals of the scenario in the spec: calories 2000, protein
30, calcium 10, no fat. -/
def totalsA : Totals where
  calories := 2000
  protein := 30
  fat := 0
  calcium := 10
  iron := 0
  zinc := 0
  magnesium := 0
  vitamin_a := 0
  vitamin_b1 := 0
  vitamin_b2 := 0
  vitamin_c := 0
  vitamin_d := 0
  vitamin_e := 0

/-- Concrete totals with all four balance nutrients strictly positive. -/
def totalsB : Totals where
  calories := 2000
  protein := 30
  fat := 10
  calcium := 10
  iron := 0
  zinc := 0
  magnesium := 0
  vitamin_a := 0
  vitamin_b1 := 0
  vitamin_b2 := 0
  vitamin_c := 0
  vitamin_d := 0
  vitamin_e := 0

/-- A concrete catalog entry. -/
def foodRice : Food where
  id := 1
  name := "rice"
  calories := some 116
  protein := some 3
  fat := some 1
  calcium := some 7
  iron := none
  zinc := none
  magnesium := none
  vitamin_a := none
  vitamin_b1 := none
  vitamin_b2 := none
  vitamin_c := none
  vitamin_d := none
  vitamin_e := none

/-- A concrete per-meal nutrition record. -/
def nutA : Nutrition := buildNutrition foodRice 1

/-- Another concrete per-meal nutrition record. -/
def nutB : Nutrition := buildNutrition foodRice 2

theorem levelLoopF_congr : ∀ f1 f2 level exp : ℕ, 1 ≤ level → exp ≤ f1 → exp ≤ f2 →
    levelLoopF f1 level exp = levelLoopF f2 level exp := by
  intro f1
  induction f1 with
  | zero =>
    intro f2 level exp hl h1 h2
    have he : exp = 0 := Nat.le_zero.mp h1
    subst he
    cases f2 with
    | zero => rfl
    | succ b =>
      simp only [levelLoopF]
      rw [if_neg (by omega : ¬ level * 100 ≤ 0)]
  | succ a ih =>
    intro f2 level exp hl h1 h2
    cases f2 with
    | zero =>
      have he : exp = 0 := Nat.le_zero.mp h2
      subst he
      simp only [levelLoopF]
      rw [if_neg (by omega : ¬ level * 100 ≤ 0)]
    | succ b =>
      simp only [levelLoopF]
      by_cases hc : level * 100 ≤ exp
      · rw [if_pos hc, if_pos hc]
        exact ih b (level + 1) (exp - level * 100) (by omega) (by omega) (by omega)
      · rw [if_neg hc, if_neg hc]

theorem drain_step (level exp : ℕ) (hl : 1 ≤ level) :
    drain level exp =
      if level * 100 ≤ exp then drain (level + 1) (exp - level * 100)
      else (level, exp) := by
  cases exp with
  | zero =>
    simp only [drain, levelLoopF]
    rw [if_neg (by omega : ¬ level * 100 ≤ 0)]
  | succ e =>
    simp only [drain, levelLoopF]
    by_cases hc : level * 100 ≤ e + 1
    · rw [if_pos hc, if_pos hc]
      exact levelLoopF_congr e (e + 1 - level * 100) (level + 1) (e + 1 - level * 100)
        (by omega) (by omega) (by omega)
    · rw [if_neg hc, if_neg hc]

theorem drain_lt (exp : ℕ) : ∀ level : ℕ, 1 ≤ level →
    (drain level exp).2 < (drain level exp).1 * 100 ∧ level ≤ (drain level exp).1 := by
  induction exp using Nat.strong_induction_on with
  | _ exp ih =>
    intro level hl
    rw [drain_step level exp hl]
    by_cases hc : level * 100 ≤ exp
    · rw [if_pos hc]
      have h2 := ih (exp - level * 100) (by omega) (level + 1) (by omega)
      exact ⟨h2.1, by omega⟩
    · rw [if_neg hc]
      exact ⟨by omega, Nat.le_refl level⟩

theorem drain_add (exp : ℕ) : ∀ level g : ℕ, 1 ≤ level →
    drain level (exp + g) = drain (drain level exp).1 ((drain level exp).2 + g) := by
  induction exp using Nat.strong_induction_on with
  | _ exp ih =>
    intro level g hl
    by_cases hc : level * 100 ≤ exp
    · rw [drain_step level (exp + g) hl, if_pos (by omega : level * 100 ≤ exp + g)]
      rw [drain_step level exp hl, if_pos hc]
      rw [(by omega : exp + g - level * 100 = (exp - level * 100) + g)]
      exact ih (exp - level * 100) (by omega) (level + 1) g (by omega)
    · rw [drain_step level exp hl, if_neg hc]

/-- C5: for any spirit with level at least 1 (experience is non-negative
by construction) and any totals, after update_spirit_attributes the
experience is strictly below level times 100, the per-level requirement
of the leveling loop. -/
theorem C5_exp_below_threshold (s : Spirit) (t : Totals) (hl : 1 ≤ s.spirit_level) :
    (update_spirit_attributes s t).1.spirit_exp <
      (update_spirit_attributes s t).1.spirit_level * 100 :=
  (drain_lt (s.spirit_exp + (5 + min (nutritionBalance t) 5)) s.spirit_level hl).1

/-- C5 witness: the invariant at a concrete fresh spirit and the concrete
scenario totals. -/
theorem C5_exp_below_threshold_witness :
    (update_spirit_attributes spiritA totalsA).1.spirit_exp <
      (update_spirit_attributes spiritA totalsA).1.spirit_level * 100 :=
  C5_exp_below_threshold spiritA totalsA (by decide)

/-- C7: starting from a normalized state (level at least 1, experience
below the threshold), folding a list of gains through the leveling loop
one at a time ends in the same state as adding the total gain once and
running the loop once. -/
theorem C7_leveling_aggregates (gains : List ℕ) :
    ∀ level exp : ℕ, 1 ≤ level → exp < level * 100 →
    gains.foldl (fun p g => drain p.1 (p.2 + g)) (level, exp) =
      drain level (exp + gains.sum) := by
  induction gains with
  | nil =>
    intro level exp hl he
    simp only [List.foldl_nil, List.sum_nil, Nat.add_zero]
    rw [drain_step level exp hl, if_neg (by omega)]
  | cons g gs ih =>
    intro level exp hl he
    simp only [List.foldl_cons, List.sum_cons]
    have hd := drain_lt (exp + g) level hl
    have key := ih (drain level (exp + g)).1 (drain level (exp + g)).2 (by omega) hd.1
    rw [(by omega : exp + (g + gs.sum) = (exp + g) + gs.sum),
        drain_add (exp + g) level gs.sum hl]
    exact key

/-- C7 witness: two gains of 6 and 250 experience from level 1. -/
theorem C7_leveling_aggregates_witness :
    [6, 250].foldl (fun p g => drain p.1 (p.2 + g)) (1, 0) =
      drain 1 (0 + [6, 250].sum) :=
  C7_leveling_aggregates [6, 250] 1 0 (by decide) (by decide)

/-- C1 counterexample: the claimed gain of 5 plus 2 per positive balance
nutrient is false on the code, which adds only 1 per nutrient: with all
four of calories, protein, fat and calcium positive the code gains 9
experience, not 13. -/
theorem C1_counterexample :
    ¬ (∀ (s : Spirit) (t : Totals),
        (update_spirit_attributes s t).2 =
          5 + 2 * ((if 0 < t.calories then 1 else 0) + (if 0 < t.protein then 1 else 0) +
                   (if 0 < t.fat then 1 else 0) + (if 0 < t.calcium then 1 else 0))) := by
  intro h
  exact absurd (h spiritA totalsB) (by decide)

/-- C1 amended: one applyMealEvent gains 5 base experience plus 1 (not 2)
for each of calories, protein, fat, calcium with strictly positive total;
the code caps the bonus at 5 but the count never exceeds 4, so the bonus
is at most 4 and the total gain at most 9. -/
theorem C1_exp_gain (s : Spirit) (t : Totals) :
    (update_spirit_attributes s t).2 = 5 + nutritionBalance t ∧
    nutritionBalance t ≤ 4 ∧ (update_spirit_attributes s t).2 ≤ 9 := by
  have hb : nutritionBalance t ≤ 4 := by
    unfold nutritionBalance
    split_ifs <;> omega
  have h1 : (update_spirit_attributes s t).2 = 5 + min (nutritionBalance t) 5 := rfl
  refine ⟨?_, hb, ?_⟩ <;> rw [h1] <;> omega

/-- C2 counterexample: the claimed attribute-growth rules are false on
the code; in particular the code never updates the height column, while
the claim requires height to grow by 0.05 whenever calcium is positive. -/
theorem C2_counterexample :
    ¬ (∀ (s : Spirit) (t : Totals),
        ((update_spirit_attributes s t).1.weight : ℚ) =
            min 100 ((s.weight : ℚ) + min (t.calories / 2000 * (1 / 10)) (1 / 10)) ∧
        ((update_spirit_attributes s t).1.strength : ℚ) =
            min 100 ((s.strength : ℚ) + min (t.protein / 30 * (1 / 10)) (1 / 10)) ∧
        ((update_spirit_attributes s t).1.height : ℚ) =
            min 200 ((s.height : ℚ) +
              (if 0 < t.calcium ∨ 0 < t.vitamin_d then 1 / 20 else 0)) ∧
        ((update_spirit_attributes s t).1.iq : ℚ) =
            min 100 ((s.iq : ℚ) + (1 / 20) *
              ((if 0 < t.vitamin_a then (1 : ℚ) else 0) +
               (if 0 < t.vitamin_b1 then 1 else 0) +
               (if 0 < t.vitamin_b2 then 1 else 0) +
               (if 0 < t.vitamin_c then 1 else 0) +
               (if 0 < t.vitamin_d then 1 else 0) +
               (if 0 < t.vitamin_e then 1 else 0)))) := by
  intro h
  have hx := (h spiritA totalsB).2.2.1
  have hh : (update_spirit_attributes spiritA totalsB).1.height = 100 := rfl
  rw [hh] at hx
  rw [show spiritA.height = 100 from rfl,
      if_pos (Or.inl (show (0 : ℚ) < totalsB.calcium by norm_num [totalsB]))] at hx
  norm_num [min_def] at hx

/-- C2 amended: per meal event the code adds the truncated quotients
calories/100 to weight, protein/10 to strength and
(vitamin_b1+vitamin_b2+vitamin_c)/30 to iq, each clamped at 100 from
above; on non-negative totals the truncation is the floor; the height
column is never changed. -/
theorem C2_attr_growth (s : Spirit) (t : Totals)
    (hc : 0 ≤ t.calories) (hp : 0 ≤ t.protein) (h1 : 0 ≤ t.vitamin_b1)
    (h2 : 0 ≤ t.vitamin_b2) (h3 : 0 ≤ t.vitamin_c) :
    (update_spirit_attributes s t).1.weight = min 100 (s.weight + ⌊t.calories / 100⌋) ∧
    (update_spirit_attributes s t).1.strength = min 100 (s.strength + ⌊t.protein / 10⌋) ∧
    (update_spirit_attributes s t).1.iq =
      min 100 (s.iq + ⌊(t.vitamin_b1 + t.vitamin_b2 + t.vitamin_c) / 30⌋) ∧
    (update_spirit_attributes s t).1.height = s.height := by
  have hfloor : ∀ q : ℚ, 0 ≤ q → pyInt q = ⌊q⌋ := by
    intro q hq
    unfold pyInt
    rw [if_pos hq]
  refine ⟨?_, ?_, ?_, rfl⟩
  · show min 100 (s.weight + pyInt (t.calories / 100)) = _
    rw [hfloor _ (div_nonneg hc (by norm_num))]
  · show min 100 (s.strength + pyInt (t.protein / 10)) = _
    rw [hfloor _ (div_nonneg hp (by norm_num))]
  · show min 100 (s.iq + pyInt ((t.vitamin_b1 + t.vitamin_b2 + t.vitamin_c) / 30)) = _
    rw [hfloor _ (div_nonneg (by linarith) (by norm_num))]

/-- C2 amended witness: the growth equations at the concrete scenario. -/
theorem C2_attr_growth_witness :
    (update_spirit_attributes spiritA totalsA).1.weight =
      min 100 (spiritA.weight + ⌊totalsA.calories / 100⌋) ∧
    (update_spirit_attributes spiritA totalsA).1.strength =
      min 100 (spiritA.strength + ⌊totalsA.protein / 10⌋) ∧
    (update_spirit_attributes spiritA totalsA).1.iq =
      min 100 (spiritA.iq +
        ⌊(totalsA.vitamin_b1 + totalsA.vitamin_b2 + totalsA.vitamin_c) / 30⌋) ∧
    (update_spirit_attributes spiritA totalsA).1.height = spiritA.height :=
  C2_attr_growth spiritA totalsA (by decide) (by decide) (by decide) (by decide)
    (by decide)

theorem pyInt_nonneg (q : ℚ) (hq : 0 ≤ q) : 0 ≤ pyInt q := by
  unfold pyInt
  rw [if_pos hq]
  exact Int.floor_nonneg.mpr hq

/-- C6: on a state within the domain maxima and non-negative totals, one
update leaves weight, strength and iq at most 100 and height at most 200,
and no attribute ever decreases, however large the totals are. -/
theorem C6_attr_bounds (s : Spirit) (t : Totals)
    (hw : s.weight ≤ 100) (hs : s.strength ≤ 100) (hq : s.iq ≤ 100)
    (hh : s.height ≤ 200)
    (h1 : 0 ≤ t.calories) (h2 : 0 ≤ t.protein) (h3 : 0 ≤ t.fat)
    (h4 : 0 ≤ t.calcium) (h5 : 0 ≤ t.iron) (h6 : 0 ≤ t.zinc)
    (h7 : 0 ≤ t.magnesium) (h8 : 0 ≤ t.vitamin_a) (h9 : 0 ≤ t.vitamin_b1)
    (h10 : 0 ≤ t.vitamin_b2) (h11 : 0 ≤ t.vitamin_c) (h12 : 0 ≤ t.vitamin_d)
    (h13 : 0 ≤ t.vitamin_e) :
    ((update_spirit_attributes s t).1.weight ≤ 100 ∧
      s.weight ≤ (update_spirit_attributes s t).1.weight) ∧
    ((update_spirit_attributes s t).1.strength ≤ 100 ∧
      s.strength ≤ (update_spirit_attributes s t).1.strength) ∧
    ((update_spirit_attributes s t).1.iq ≤ 100 ∧
      s.iq ≤ (update_spirit_attributes s t).1.iq) ∧
    ((update_spirit_attributes s t).1.height ≤ 200 ∧
      s.height ≤ (update_spirit_attributes s t).1.height) := by
  have hwq : (update_spirit_attributes s t).1.weight =
      min 100 (s.weight + pyInt (t.calories / 100)) := rfl
  have hsq : (update_spirit_attributes s t).1.strength =
      min 100 (s.strength + pyInt (t.protein / 10)) := rfl
  have hqq : (update_spirit_attributes s t).1.iq =
      min 100 (s.iq + pyInt ((t.vitamin_b1 + t.vitamin_b2 + t.vitamin_c) / 30)) := rfl
  have hhq : (update_spirit_attributes s t).1.height = s.height := rfl
  refine ⟨⟨?_, ?_⟩, ⟨?_, ?_⟩, ⟨?_, ?_⟩, ⟨?_, ?_⟩⟩
  · rw [hwq]; exact min_le_left _ _
  · rw [hwq]
    exact le_min hw
      (le_add_of_nonneg_right (pyInt_nonneg _ (div_nonneg h1 (by norm_num))))
  · rw [hsq]; exact min_le_left _ _
  · rw [hsq]
    exact le_min hs
      (le_add_of_nonneg_right (pyInt_nonneg _ (div_nonneg h2 (by norm_num))))
  · rw [hqq]; exact min_le_left _ _
  · rw [hqq]
    exact le_min hq
      (le_add_of_nonneg_right (pyInt_nonneg _
        (div_nonneg (by linarith) (by norm_num))))
  · rw [hhq]; exact hh
  · rw [hhq]

/-- C6 witness: the bounds at a concrete state and the scenario totals. -/
theorem C6_attr_bounds_witness :
    ((update_spirit_attributes spiritA totalsA).1.weight ≤ 100 ∧
      spiritA.weight ≤ (update_spirit_attributes spiritA totalsA).1.weight) ∧
    ((update_spirit_attributes spiritA totalsA).1.strength ≤ 100 ∧
      spiritA.strength ≤ (update_spirit_attributes spiritA totalsA).1.strength) ∧
    ((update_spirit_attributes spiritA totalsA).1.iq ≤ 100 ∧
      spiritA.iq ≤ (update_spirit_attributes spiritA totalsA).1.iq) ∧
    ((update_spirit_attributes spiritA totalsA).1.height ≤ 200 ∧
      spiritA.height ≤ (update_spirit_attributes spiritA totalsA).1.height) :=
  C6_attr_bounds spiritA totalsA (by decide) (by decide) (by decide) (by decide)
    (by decide) (by decide) (by decide) (by decide) (by decide) (by decide)
    (by decide) (by decide) (by decide) (by decide) (by decide) (by decide)
    (by decide)

/-- C9: the meal classifier maps hours 5-9 to breakfast, 10-14 to lunch,
15-22 to dinner, and the late-night hours 23 and 0-4 back to breakfast;
it is total, with no failure mode. -/
theorem C9_meal_classifier (h : ℕ) (hday : h < 24) :
    (5 ≤ h ∧ h < 10 → get_meal_type_by_time h = "1") ∧
    (10 ≤ h ∧ h < 15 → get_meal_type_by_time h = "2") ∧
    (15 ≤ h ∧ h < 23 → get_meal_type_by_time h = "3") ∧
    (23 ≤ h ∨ h < 5 → get_meal_type_by_time h = "1") := by
  unfold get_meal_type_by_time
  refine ⟨?_, ?_, ?_, ?_⟩ <;> intro hc <;> split_ifs <;> first | rfl | omega

/-- C9 witness: hour 7 is classified as breakfast. -/
theorem C9_meal_classifier_witness : get_meal_type_by_time 7 = "1" :=
  (C9_meal_classifier 7 (by decide)).1 (by decide)

/-- C4: the seven-tier grading table, with the lower-side brackets closed
on their lower edge and the upper-side brackets closed on their upper
edge: exactly 60 is deficiency and exactly 105 is normal; 59 and 141 both
grade level 1, and 100 grades level 4. -/
theorem C4_grade_table (p : ℚ) :
    (p < 60 →
      (get_nutrition_grade p).level = 1 ∧ (get_nutrition_grade p).grade = "严重不足") ∧
    (60 ≤ p → p < 80 →
      (get_nutrition_grade p).level = 2 ∧ (get_nutrition_grade p).grade = "不足") ∧
    (80 ≤ p → p < 95 →
      (get_nutrition_grade p).level = 3 ∧ (get_nutrition_grade p).grade = "略低") ∧
    (95 ≤ p → p ≤ 105 →
      (get_nutrition_grade p).level = 4 ∧ (get_nutrition_grade p).grade = "适中") ∧
    (105 < p → p ≤ 120 →
      (get_nutrition_grade p).level = 3 ∧ (get_nutrition_grade p).grade = "充足") ∧
    (120 < p → p ≤ 140 →
      (get_nutrition_grade p).level = 2 ∧ (get_nutrition_grade p).grade = "过量") ∧
    (140 < p →
      (get_nutrition_grade p).level = 1 ∧ (get_nutrition_grade p).grade = "严重过量") ∧
    (get_nutrition_grade 59).level = 1 ∧
    (get_nutrition_grade 141).level = 1 ∧
    (get_nutrition_grade 100).level = 4 ∧
    (get_nutrition_grade 60).grade = "不足" ∧
    (get_nutrition_grade 105).grade = "适中" := by
  refine ⟨?_, ?_, ?_, ?_, ?_, ?_, ?_, ?_, ?_, ?_, ?_, ?_⟩
  · intro h1
    unfold get_nutrition_grade
    split_ifs <;> first | exact ⟨rfl, rfl⟩ | (exfalso; linarith)
  · intro h1 h2
    unfold get_nutrition_grade
    split_ifs <;> first | exact ⟨rfl, rfl⟩ | (exfalso; linarith)
  · intro h1 h2
    unfold get_nutrition_grade
    split_ifs <;> first | exact ⟨rfl, rfl⟩ | (exfalso; linarith)
  · intro h1 h2
    unfold get_nutrition_grade
    split_ifs <;> first | exact ⟨rfl, rfl⟩ | (exfalso; linarith)
  · intro h1 h2
    unfold get_nutrition_grade
    split_ifs <;> first | exact ⟨rfl, rfl⟩ | (exfalso; linarith)
  · intro h1 h2
    unfold get_nutrition_grade
    split_ifs <;> first | exact ⟨rfl, rfl⟩ | (exfalso; linarith)
  · intro h1
    unfold get_nutrition_grade
    split_ifs <;> first | exact ⟨rfl, rfl⟩ | (exfalso; linarith)
  · norm_num [get_nutrition_grade]
  · norm_num [get_nutrition_grade]
  · norm_num [get_nutrition_grade]
  · norm_num [get_nutrition_grade]
  · norm_num [get_nutrition_grade]

/-- C4 witness: percentage 70 grades as deficiency, level 2. -/
theorem C4_grade_table_witness :
    (get_nutrition_grade 70).level = 2 ∧ (get_nutrition_grade 70).grade = "不足" :=
  (C4_grade_table 70).2.1 (by norm_num) (by norm_num)

/-- C10: every entry of the standards table, over the whole nutrient
catalog, both genders and every age, is strictly positive, so the
percentage computation of analyze_nutrition never divides by zero. -/
theorem C10_standards_positive (n : Nutrient) (g : Gender) (a : ℤ) :
    0 < get_nutrition_standard n g a ∧ get_nutrition_standard n g a ≠ 0 := by
  have hp : 0 < get_nutrition_standard n g a := by
    cases n <;> cases g <;> simp only [get_nutrition_standard] <;>
      first
      | (split_ifs <;> norm_num)
      | norm_num
  exact ⟨hp, ne_of_gt hp⟩

instance : RightCommutative addNutrition :=
  ⟨fun b a1 a2 => by
    simp only [addNutrition, Totals.mk.injEq]
    refine ⟨?_, ?_, ?_, ?_, ?_, ?_, ?_, ?_, ?_, ?_, ?_, ?_, ?_⟩ <;> ring⟩

/-- C8: aggregation is invariant under permutation of the input list. -/
theorem C8_perm_invariant (l1 l2 : List Nutrition) (hp : l1.Perm l2) :
    calculate_total_nutrition l1 = calculate_total_nutrition l2 := by
  unfold calculate_total_nutrition
  exact hp.foldl_eq zeroTotals

/-- C8 witness: swapping a concrete two-element list preserves totals. -/
theorem C8_perm_invariant_witness :
    calculate_total_nutrition [nutA, nutB] = calculate_total_nutrition [nutB, nutA] :=
  C8_perm_invariant [nutA, nutB] [nutB, nutA] (List.Perm.swap nutB nutA [])

/-- C3 counterexample: record_meal never validates portion multipliers:
a request whose only item carries portion 0 is accepted, refuting the
claimed InvalidPortion rejection of non-positive portions. -/
theorem C3_counterexample :
    ¬ (∀ (catalog : List Food) (recordedIds : List ℕ) (spirit : Spirit)
         (foods : List FoodReq),
        (∃ fr ∈ foods, fr.amount.getD 1 ≤ 0) →
        exceptOk (record_meal catalog recordedIds spirit foods) = false) := by
  intro h
  have hx := h [foodRice] [] spiritA [{ food_name := some "rice", amount := some 0 }]
    ⟨{ food_name := some "rice", amount := some 0 },
      List.mem_singleton_self _, by norm_num⟩
  have ht : exceptOk (record_meal [foodRice] [] spiritA
      [{ food_name := some "rice", amount := some 0 }]) = true := rfl
  rw [ht] at hx
  exact absurd hx (by decide)

theorem processFoods_shape (catalog : List Food) (recordedIds : List ℕ) :
    ∀ f1 f2 : List FoodReq, f1.map FoodReq.food_name = f2.map FoodReq.food_name →
    procShape (processFoods catalog recordedIds f1) =
      procShape (processFoods catalog recordedIds f2) := by
  intro f1
  induction f1 with
  | nil =>
    intro f2 hm
    cases f2 with
    | nil => rfl
    | cons b bs => simp at hm
  | cons a as ih =>
    intro f2 hm
    cases f2 with
    | nil => simp at hm
    | cons b bs =>
      simp only [List.map_cons, List.cons.injEq] at hm
      obtain ⟨hab, hm2⟩ := hm
      have ihb := ih bs hm2
      simp only [processFoods]
      rw [← hab]
      cases hname : a.food_name with
      | none =>
        dsimp only
        exact ihb
      | some nm =>
        dsimp only
        cases hfind : catalog.find? (fun f => f.name = nm) with
        | none => rfl
        | some food =>
          dsimp only
          by_cases hid : food.id ∈ recordedIds
          · simp only [if_pos hid]
            cases hpa : processFoods catalog recordedIds as with
            | error ea =>
              cases hpb : processFoods catalog recordedIds bs with
              | error eb =>
                rw [hpa, hpb] at ihb
                simp only [procShape, Except.error.injEq] at ihb
                dsimp only
                rw [ihb]
              | ok pb =>
                rw [hpa, hpb] at ihb
                obtain ⟨r2, s2⟩ := pb
                simp [procShape] at ihb
            | ok pa =>
              obtain ⟨r1, s1⟩ := pa
              cases hpb : processFoods catalog recordedIds bs with
              | error eb =>
                rw [hpa, hpb] at ihb
                simp [procShape] at ihb
              | ok pb =>
                obtain ⟨r2, s2⟩ := pb
                rw [hpa, hpb] at ihb
                dsimp only
                simp only [procShape, Except.ok.injEq, Prod.mk.injEq] at ihb ⊢
                exact ⟨ihb.1, by rw [ihb.2]⟩
          · simp only [if_neg hid]
            cases hpa : processFoods catalog recordedIds as with
            | error ea =>
              cases hpb : processFoods catalog recordedIds bs with
              | error eb =>
                rw [hpa, hpb] at ihb
                simp only [procShape, Except.error.injEq] at ihb
                dsimp only
                rw [ihb]
              | ok pb =>
                rw [hpa, hpb] at ihb
                obtain ⟨r2, s2⟩ := pb
                simp [procShape] at ihb
            | ok pa =>
              obtain ⟨r1, s1⟩ := pa
              cases hpb : processFoods catalog recordedIds bs with
              | error eb =>
                rw [hpa, hpb] at ihb
                simp [procShape] at ihb
              | ok pb =>
                obtain ⟨r2, s2⟩ := pb
                rw [hpa, hpb] at ihb
                dsimp only
                simp only [procShape, Except.ok.injEq, Prod.mk.injEq,
                  List.length_cons] at ihb ⊢
                exact ⟨by omega, ihb.2⟩

/-- C3 amended: record_meal applies no portion validation at all.
Success or failure of the handler depends only on the sequence of food
names in the request (the lookup results and the duplicate skips), never
on the portion multipliers, so items with portion 0 or negative are
accepted and aggregated like any other. -/
theorem C3_no_portion_validation (catalog : List Food) (recordedIds : List ℕ)
    (spirit : Spirit) (foods1 foods2 : List FoodReq)
    (hn : foods1.map FoodReq.food_name = foods2.map FoodReq.food_name) :
    exceptOk (record_meal catalog recordedIds spirit foods1) =
      exceptOk (record_meal catalog recordedIds spirit foods2) := by
  have hs := processFoods_shape catalog recordedIds foods1 foods2 hn
  have hemp : foods1.isEmpty = foods2.isEmpty := by
    cases foods1 <;> cases foods2 <;> simp_all
  unfold record_meal
  rw [hemp]
  by_cases he : foods2.isEmpty = true
  · simp only [if_pos he]
  · simp only [if_neg he]
    cases hp1 : processFoods catalog recordedIds foods1 with
    | error e1 =>
      cases hp2 : processFoods catalog recordedIds foods2 with
      | error e2 => rfl
      | ok p2 =>
        rw [hp1, hp2] at hs
        obtain ⟨r2, s2⟩ := p2
        simp [procShape] at hs
    | ok p1 =>
      obtain ⟨r1, s1⟩ := p1
      cases hp2 : processFoods catalog recordedIds foods2 with
      | error e2 =>
        rw [hp1, hp2] at hs
        simp [procShape] at hs
      | ok p2 =>
        obtain ⟨r2, s2⟩ := p2
        rw [hp1, hp2] at hs
        simp only [procShape, Except.ok.injEq, Prod.mk.injEq] at hs
        have hre : r1.isEmpty = r2.isEmpty := by
          cases r1 <;> cases r2 <;> simp_all
        dsimp only
        rw [hre]
        by_cases hr : r2.isEmpty = true
        · simp only [if_pos hr]
        · simp only [if_neg hr]
          rfl

/-- C3 amended witness: two singleton requests for the same food, one
with portion 0 and one with portion 2, have the same success status. -/
theorem C3_no_portion_validation_witness :
    exceptOk (record_meal [foodRice] [] spiritA
        [{ food_name := some "rice", amount := some 0 }]) =
      exceptOk (record_meal [foodRice] [] spiritA
        [{ food_name := some "rice", amount := some 2 }]) :=
  C3_no_portion_validation [foodRice] [] spiritA
    [{ food_name := some "rice", amount := some 0 }]
    [{ food_name := some "rice", amount := some 2 }] (by decide)

end AIDish
